import Mathlib

/-!
Verification of the IFungi monitoring core: the heartbeat liveness monitor,
the history reducer and chart range/label engine of the monitoring screen,
the simpler online check of the second monitoring variant, and the actuator
state derivation.  Timestamps are modelled as natural numbers (milliseconds
since epoch); elapsed times are computed in `ℤ` so that a signal ahead of the
local clock behaves as in the JavaScript source (a negative difference is
below every positive threshold).  Numeric sensor values are modelled as `ℚ`.
-/

namespace IFungi

/-! ## Heartbeat liveness monitor (Monitoramento.tsx, the richer variant) -/

/-- Constant `HEARTBEAT_TIMEOUT = 25000`: milliseconds since the last signal
after which the greenhouse is considered offline. -/
def HEARTBEAT_TIMEOUT : ℕ := 25000

/-- Constant `CHECK_INTERVAL = 5000`: polling cadence of the status check. -/
def CHECK_INTERVAL : ℕ := 5000

/-- Constant `INITIAL_GRACE_PERIOD = 10000`: initial tolerance window during
which the offline verdict is suppressed. -/
def INITIAL_GRACE_PERIOD : ℕ := 10000

/-- State of the heartbeat monitor: `lastHeartbeatRef.current`, the published
`isOnline` React state, and `initialLoadRef.current` (the grace flag). -/
structure HBState where
  lastAliveAt : ℕ
  isOnline : Bool
  graceActive : Bool
deriving DecidableEq, Repr

/-- Embedding of `checkHeartbeatStatus` evaluated at `currentTime`.  Returns
the next state together with the published value: `some b` when the code calls
`setIsOnline(b)`, `none` when it does not.  Mirrors the source control flow:
the grace branch calls `setIsOnline(true)` unconditionally and returns; the
second `if` clears the grace flag once the elapsed time reaches the window;
afterwards `setIsOnline` is called only when the computed boolean differs. -/
def checkHeartbeatStatusPub (s : HBState) (currentTime : ℕ) : HBState × Option Bool :=
  let timeSince : ℤ := (currentTime : ℤ) - (s.lastAliveAt : ℤ)
  if s.graceActive = true ∧ timeSince < (INITIAL_GRACE_PERIOD : ℤ) then
    ({ s with isOnline := true }, some true)
  else
    let s1 := if s.graceActive = true ∧ (INITIAL_GRACE_PERIOD : ℤ) ≤ timeSince then
                { s with graceActive := false }
              else s
    let shouldBeOnline : Bool := decide (timeSince < (HEARTBEAT_TIMEOUT : ℤ))
    if s1.isOnline ≠ shouldBeOnline then
      ({ s1 with isOnline := shouldBeOnline }, some shouldBeOnline)
    else
      (s1, none)

/-- The state transition of `checkHeartbeatStatus` (publication discarded). -/
def checkHeartbeatStatus (s : HBState) (currentTime : ℕ) : HBState :=
  (checkHeartbeatStatusPub s currentTime).1

/-- Embedding of `updateHeartbeat` for a numeric candidate timestamp: the
guard `lastHeartbeat && lastHeartbeat > lastHeartbeatRef.current` accepts a
non-zero timestamp strictly greater than the stored one, stores it and runs an
immediate `checkHeartbeatStatus` at `now`; otherwise nothing happens. -/
def updateHeartbeat (s : HBState) (lastHeartbeat : ℕ) (now : ℕ) : HBState :=
  if lastHeartbeat ≠ 0 ∧ s.lastAliveAt < lastHeartbeat then
    checkHeartbeatStatus { s with lastAliveAt := lastHeartbeat } now
  else s

/-- An incoming liveness value as delivered by the store: a number, the
numeric `NaN`, a missing field (`undefined`/`null`), or a string that fails
numeric coercion. -/
inductive LivenessValue where
  | num (t : ℕ)
  | nan
  | missing
  | strBad (s : String)
deriving DecidableEq, Repr

/-- Embedding of `updateHeartbeat` on the full JavaScript value domain.  For
`nan`, `missing` and non-numeric strings the guard
`lastHeartbeat && lastHeartbeat > lastHeartbeatRef.current` is false (`NaN`
and `undefined` are falsy; a relational comparison against `NaN` is false), so
the call is a no-op. -/
def updateHeartbeatVal (s : HBState) (v : LivenessValue) (now : ℕ) : HBState :=
  match v with
  | .num t => updateHeartbeat s t now
  | .nan => s
  | .missing => s
  | .strBad _ => s

/-- State installed by the heartbeat start-up effect:
`lastHeartbeatRef.current = Date.now()`, `setIsOnline(true)`, and
`initialLoadRef.current = true` (grace armed by `startHeartbeatMonitoring`). -/
def startState (t0 : ℕ) : HBState := ⟨t0, true, true⟩

/-- Fold a sequence of poll-tick evaluations over the monitor state. -/
def runEvals (s : HBState) (ts : List ℕ) : HBState :=
  ts.foldl checkHeartbeatStatus s

/-- Fold a sequence of delivered signals over the monitor state; each signal
is a pair of the candidate timestamp and the wall-clock time of delivery. -/
def runSignals (s : HBState) (sigs : List (ℕ × ℕ)) : HBState :=
  sigs.foldl (fun st p => updateHeartbeat st p.1 p.2) s

/-! ## Simpler monitoring variant (part_006): `checkOnlineStatus` -/

/-- Threshold literal `45000` used by the simpler variant. -/
def SIMPLE_HEARTBEAT_TIMEOUT : ℕ := 45000

/-- Embedding of the simpler variant's `checkOnlineStatus`: a falsy (zero)
`lastHeartbeat` is immediately offline, otherwise the device is online exactly
when less than 45000 ms have elapsed.  There is no grace state: the function
reads nothing but its two arguments. -/
def checkOnlineStatus (lastHeartbeat : ℕ) (currentTime : ℕ) : Bool :=
  if lastHeartbeat = 0 then false
  else decide ((currentTime : ℤ) - (lastHeartbeat : ℤ) < (SIMPLE_HEARTBEAT_TIMEOUT : ℤ))

/-! ## History reducer (Monitoramento.tsx) -/

/-- A raw JavaScript field value of a history record: a number, the numeric
`NaN`, `null`, `undefined`, a string coercible to a number, or a string that
fails numeric coercion. -/
inductive JValue where
  | num (q : ℚ)
  | nan
  | jnull
  | jundef
  | strNum (q : ℚ)
  | strBad (s : String)
deriving DecidableEq, Repr

/-- Whether `value != null` is false, i.e. the value is `null` or
`undefined` (loose equality against `null` matches both). -/
def jsIsNullish : JValue → Bool
  | .jnull => true
  | .jundef => true
  | _ => false

/-- `Number(value)` when the result is a real number, `none` when it is
`NaN` (`Number(null) = 0`, `Number(undefined) = NaN`, a numeric string parses,
a non-numeric string gives `NaN`). -/
def jsToNumber : JValue → Option ℚ
  | .num q => some q
  | .nan => none
  | .jnull => some 0
  | .jundef => none
  | .strNum q => some q
  | .strBad _ => none

/-- The filter predicate of `filteredHistorico`:
`value != null && !isNaN(Number(value))`. -/
def keepSample (v : JValue) : Bool :=
  !jsIsNullish v && (jsToNumber v).isSome

/-- A raw history record as stored under `historico/{id}/{key}`.  The field
`dataHora` is an ISO-8601 string in the source; it is modelled here by its
parsed epoch value `new Date(dataHora).getTime()`, which is the only use the
code makes of it (sorting and time-axis labels). -/
structure RawHistorico where
  co : JValue
  co2 : JValue
  dataHora : ℤ
  luminosidade : JValue
  temperatura : JValue
  tvocs : JValue
  umidade : JValue
deriving DecidableEq, Repr

/-- A `HistoricoItem`: the raw record with the store key attached as its
`timestamp` field by the load step. -/
structure HistoricoItem where
  co : JValue
  co2 : JValue
  dataHora : ℤ
  luminosidade : JValue
  temperatura : JValue
  timestamp : String
  tvocs : JValue
  umidade : JValue
deriving DecidableEq, Repr

/-- The record construction `{...data[key], timestamp: key}`. -/
def mkItem (r : RawHistorico) (key : String) : HistoricoItem :=
  { co := r.co, co2 := r.co2, dataHora := r.dataHora,
    luminosidade := r.luminosidade, temperatura := r.temperatura,
    timestamp := key, tvocs := r.tvocs, umidade := r.umidade }

/-- The chronological order used by the sort comparator
`(a, b) => new Date(a.dataHora).getTime() - new Date(b.dataHora).getTime()`. -/
def byDataHora (a b : HistoricoItem) : Prop := a.dataHora ≤ b.dataHora

instance : DecidableRel byDataHora := fun a b => Int.decLe a.dataHora b.dataHora

instance : IsTotal HistoricoItem byDataHora := ⟨fun a b => Int.le_total a.dataHora b.dataHora⟩

instance : IsTrans HistoricoItem byDataHora := ⟨fun _ _ _ h1 h2 => le_trans h1 h2⟩

/-- Embedding of the `onValue` body of `loadHistoricoFromFirebase`: the
delivered window (a finite map from capture key to raw record, modelled as an
association list) is flattened to `HistoricoItem`s with the key attached, then
sorted ascending by parsed `dataHora` (JavaScript `Array.prototype.sort` is
stable; `insertionSort` is a stable ascending sort). -/
def loadHistoricoFromFirebase (entries : List (String × RawHistorico)) : List HistoricoItem :=
  List.insertionSort byDataHora (entries.map fun e => mkItem e.2 e.1)

/-- The metric selected for the chart, one of the five `metricOptions`. -/
inductive Metric where
  | temperatura
  | umidade
  | luminosidade
  | co2
  | co
deriving DecidableEq, Repr

/-- Field access `item[selectedMetric.key]`. -/
def getField (i : HistoricoItem) : Metric → JValue
  | .temperatura => i.temperatura
  | .umidade => i.umidade
  | .luminosidade => i.luminosidade
  | .co2 => i.co2
  | .co => i.co

/-- Embedding of the `filteredHistorico` memo: empty input short-circuits to
`[]`; otherwise records whose selected-metric value is nullish or fails
numeric coercion are dropped. -/
def filteredHistorico (historico : List HistoricoItem) (m : Metric) : List HistoricoItem :=
  if historico = [] then []
  else historico.filter (fun item => keepSample (getField item m))

/-! ## Chart range and label engine (Monitoramento.tsx) -/

/-- Result of the `chartRange` memo. -/
structure ChartRange where
  min : ℚ
  max : ℚ
  current : ℚ
  actualMin : ℚ
  actualMax : ℚ
deriving DecidableEq, Repr

/-- `Number(value) || 0`: the numeric coercion of the field, with `NaN` (and
`0` itself) collapsed to `0`. -/
def jsOr0 (v : JValue) : ℚ := (jsToNumber v).getD 0

/-- Embedding of the `chartRange` memo: the all-zero range for an empty
filtered series; otherwise `min`/`max` over the coerced values
(`Math.min(...values)` / `Math.max(...values)`), `current` the last value, and
a `10%`-of-span margin applied to the displayed bounds.  The source's
`.filter(v => !isNaN(v))` step is the identity here because `|| 0` has already
replaced `NaN` by `0`; the second all-zero guard on an empty `values` list is
kept as in the source (it is unreachable). -/
def chartRange (filtered : List HistoricoItem) (m : Metric) : ChartRange :=
  if filtered = [] then ⟨0, 0, 0, 0, 0⟩
  else
    match filtered.map (fun item => jsOr0 (getField item m)) with
    | [] => ⟨0, 0, 0, 0, 0⟩
    | v :: vs =>
      let mn := vs.foldl min v
      let mx := vs.foldl max v
      let current := (v :: vs).getLast (by simp)
      let margin := (mx - mn) * (1 / 10)
      ⟨mn - margin, mx + margin, current, mn, mx⟩

/-- JavaScript `Math.round`: round half toward positive infinity. -/
def jsRound (q : ℚ) : ℤ := ⌊q + 1 / 2⌋

/-- JavaScript `value.toFixed(1)` over the exact rational value: round
`10 * value` to the nearest integer (ties toward the larger candidate) and
print with one decimal digit. -/
def fmtFixed1 (q : ℚ) : String :=
  (if ⌊q * 10 + 1 / 2⌋ < 0 then "-" else "")
    ++ toString ((⌊q * 10 + 1 / 2⌋).natAbs / 10)
    ++ "." ++ toString ((⌊q * 10 + 1 / 2⌋).natAbs % 10)

/-- The per-metric label formatter of `generateYAxisLabels`: one decimal plus
°C for temperature, rounded integer plus `%` / `LUX` / `PPM` otherwise. -/
def fmtLabel (m : Metric) (value : ℚ) : String :=
  match m with
  | .temperatura => fmtFixed1 value ++ "°C"
  | .umidade => toString (jsRound value) ++ "%"
  | .luminosidade => toString (jsRound value) ++ "LUX"
  | _ => toString (jsRound value) ++ "PPM"

/-- The value levels of the label loop `for (i = steps; i >= 0; i--)` with
`steps = 4`: the j-th produced level uses `i = 4 - j`, i.e.
`min + range * (4 - j) / 4`. -/
def yLevels (r : ChartRange) : List ℚ :=
  (List.range 5).map fun j => r.min + (r.max - r.min) * (((4 - j : ℕ) : ℚ)) / 4

/-- Embedding of `generateYAxisLabels`: five blank labels for an empty
filtered series, otherwise the five levels from the padded top down to the
padded base, each formatted per metric. -/
def generateYAxisLabels (filtered : List HistoricoItem) (m : Metric) : List String :=
  if filtered = [] then ["", "", "", "", ""]
  else (yLevels (chartRange filtered m)).map (fmtLabel m)

/-! ## Actuator state derivation (estado_estufa.tsx / part_006) -/

/-- The raw actuator snapshot fields used by the derivation; each relay field
may be absent (`none`) or an explicit boolean. -/
structure Atuadores where
  rele1 : Option Bool
  rele2 : Option Bool
  rele3 : Option Bool
  umidificador : Option Bool
deriving DecidableEq, Repr

/-- `Boolean(x)` for a nullable boolean field: `null`/`undefined` are falsy. -/
def jsBool (b : Option Bool) : Bool := b.getD false

/-- The nullish-coalescing operator `x ?? y` on nullable boolean fields:
`y` only when `x` is `null`/`undefined`; an explicit `false` is kept. -/
def nullishOr (x y : Option Bool) : Option Bool :=
  match x with
  | some b => some b
  | none => y

/-- Embedding of the `climatizador` memo: relay 1 off means OFF regardless of
relay 2; relay 1 and relay 2 on means heating (Aquecendo); relay 1 on with
relay 2 off means cooling (Resfriando). -/
def climatizador (a : Atuadores) : String × String :=
  if !(jsBool a.rele1) then ("OFF", "#d3d3d3")
  else if jsBool a.rele2 && jsBool a.rele1 then ("Aquecendo", "#FFA500")
  else ("Resfriando", "#B2F0F4")

/-- Embedding of the `umidificador` memo:
`data.atuadores.umidificador ?? data.atuadores.rele3`, coerced to a boolean,
selects ON or OFF. -/
def umidificador (a : Atuadores) : String × String :=
  if jsBool (nullishOr a.umidificador a.rele3) then ("ON", "#00FF00")
  else ("OFF", "#d3d3d3")

/-! ## Concrete demonstration records -/

/-- Demo record 1: temperature 20, captured at epoch offset 1000. -/
def demoRaw1 : RawHistorico :=
  { co := .num 1, co2 := .num 400, dataHora := 1000, luminosidade := .num 10,
    temperatura := .num 20, tvocs := .num 0, umidade := .num 50 }

/-- Demo record 2: temperature `null`, captured at epoch offset 2000. -/
def demoRaw2 : RawHistorico :=
  { co := .num 1, co2 := .num 410, dataHora := 2000, luminosidade := .num 11,
    temperatura := .jnull, tvocs := .num 0, umidade := .num 51 }

/-- Demo record 3: temperature 22, captured at epoch offset 3000. -/
def demoRaw3 : RawHistorico :=
  { co := .num 1, co2 := .num 420, dataHora := 3000, luminosidade := .num 12,
    temperatura := .num 22, tvocs := .num 0, umidade := .num 52 }

/-- A three-record history window with temperatures 20, null, 22 at
increasing capture timestamps. -/
def demoEntries : List (String × RawHistorico) :=
  [("k1", demoRaw1), ("k2", demoRaw2), ("k3", demoRaw3)]

/-- The loaded item for demo record 1. -/
def demoItem1 : HistoricoItem := mkItem demoRaw1 "k1"

/-- The loaded item for demo record 3. -/
def demoItem3 : HistoricoItem := mkItem demoRaw3 "k3"

/-! ### Basic lemmas about the monitor -/

/-- An evaluation never changes the stored timestamp. -/
lemma checkHeartbeatStatus_lastAliveAt (s : HBState) (t : ℕ) :
    (checkHeartbeatStatus s t).lastAliveAt = s.lastAliveAt := by
  unfold checkHeartbeatStatus checkHeartbeatStatusPub
  dsimp only
  split_ifs <;> rfl

/-- An evaluation never changes the published flag except through the
computed verdict: after `checkHeartbeatStatus` the flag is online exactly when
the elapsed time is below the 25000 ms timeout (the grace branch forces
`true`, and the grace window is contained in the timeout window). -/
lemma checkHeartbeatStatus_isOnline (s : HBState) (t : ℕ) :
    (checkHeartbeatStatus s t).isOnline =
      decide ((t : ℤ) - (s.lastAliveAt : ℤ) < (HEARTBEAT_TIMEOUT : ℤ)) := by
  unfold checkHeartbeatStatus checkHeartbeatStatusPub
  dsimp only
  split_ifs with h1 h2 h3 h4
  all_goals simp_all [HEARTBEAT_TIMEOUT, INITIAL_GRACE_PERIOD]
  all_goals omega

lemma runEvals_lastAliveAt (ts : List ℕ) (s : HBState) :
    (runEvals s ts).lastAliveAt = s.lastAliveAt := by
  induction ts generalizing s with
  | nil => rfl
  | cons a ts ih =>
    simp only [runEvals, List.foldl_cons] at *
    rw [ih, checkHeartbeatStatus_lastAliveAt]

/-- The stored timestamp after `updateHeartbeat` is the maximum of the old
timestamp and the candidate (a zero candidate is falsy and ignored;
a candidate not greater than the stored one is ignored). -/
lemma updateHeartbeat_lastAliveAt (s : HBState) (t now : ℕ) :
    (updateHeartbeat s t now).lastAliveAt = Nat.max s.lastAliveAt t := by
  unfold updateHeartbeat
  split_ifs with h
  · rw [checkHeartbeatStatus_lastAliveAt]
    exact (Nat.max_eq_right (Nat.le_of_lt h.2)).symm
  · rcases Decidable.not_and_iff_or_not.mp h with h0 | hle
    · simp only [ne_eq, Decidable.not_not] at h0
      subst h0
      exact (Nat.max_eq_left (Nat.zero_le _)).symm
    · exact (Nat.max_eq_left (Nat.le_of_not_lt hle)).symm

lemma runSignals_lastAliveAt (sigs : List (ℕ × ℕ)) (s : HBState) :
    (runSignals s sigs).lastAliveAt = (sigs.map Prod.fst).foldl Nat.max s.lastAliveAt := by
  induction sigs generalizing s with
  | nil => rfl
  | cons p sigs ih =>
    simp only [runSignals, List.foldl_cons, List.map_cons] at *
    rw [ih, updateHeartbeat_lastAliveAt]

/-! ### Claim theorems: heartbeat monitor -/

/-- C1: after `start` at `t0` (grace armed, `lastAliveAt = t0`) and no signal
ever received, an evaluation at `now` — after any sequence of earlier poll
ticks — reports online while fewer than `10000` ms have elapsed, still online
while the elapsed time is below `25000` ms, and offline once the elapsed time
reaches `max 10000 25000 = 25000` ms. -/
theorem heartbeat_no_signal_phases (t0 : ℕ) (ts : List ℕ) (now : ℕ) :
    ((now : ℤ) - (t0 : ℤ) < (INITIAL_GRACE_PERIOD : ℤ) →
      (checkHeartbeatStatus (runEvals (startState t0) ts) now).isOnline = true)
  ∧ ((INITIAL_GRACE_PERIOD : ℤ) ≤ (now : ℤ) - (t0 : ℤ) →
      (now : ℤ) - (t0 : ℤ) < (HEARTBEAT_TIMEOUT : ℤ) →
      (checkHeartbeatStatus (runEvals (startState t0) ts) now).isOnline = true)
  ∧ (((Nat.max INITIAL_GRACE_PERIOD HEARTBEAT_TIMEOUT : ℕ) : ℤ) ≤ (now : ℤ) - (t0 : ℤ) →
      (checkHeartbeatStatus (runEvals (startState t0) ts) now).isOnline = false) := by
  have hl : (runEvals (startState t0) ts).lastAliveAt = t0 := runEvals_lastAliveAt ts _
  have h := checkHeartbeatStatus_isOnline (runEvals (startState t0) ts) now
  rw [hl] at h
  rw [HEARTBEAT_TIMEOUT] at h
  push_cast at h
  have hmax : (Nat.max INITIAL_GRACE_PERIOD HEARTBEAT_TIMEOUT : ℕ) = 25000 := rfl
  rw [hmax]
  refine ⟨fun h1 => ?_, fun h1 h2 => ?_, fun h1 => ?_⟩ <;> rw [h] <;>
    simp only [decide_eq_true_eq, decide_eq_false_iff_not, not_lt] <;>
    simp only [HEARTBEAT_TIMEOUT, INITIAL_GRACE_PERIOD] at * <;>
    omega

/-- Witness for C1 at `t0 = 0`: online at `now = 0` (grace), online at
`now = 11000` after a tick at `5000` (grace over, under the timeout), offline
at `now = 26000` after ticks at `5000` and `11000`. -/
theorem heartbeat_no_signal_phases_witness :
    ((0 : ℤ) - ((0 : ℕ) : ℤ) < (INITIAL_GRACE_PERIOD : ℤ)
      ∧ (checkHeartbeatStatus (runEvals (startState 0) []) 0).isOnline = true)
  ∧ ((INITIAL_GRACE_PERIOD : ℤ) ≤ ((11000 : ℕ) : ℤ) - ((0 : ℕ) : ℤ)
      ∧ ((11000 : ℕ) : ℤ) - ((0 : ℕ) : ℤ) < (HEARTBEAT_TIMEOUT : ℤ)
      ∧ (checkHeartbeatStatus (runEvals (startState 0) [5000]) 11000).isOnline = true)
  ∧ (((Nat.max INITIAL_GRACE_PERIOD HEARTBEAT_TIMEOUT : ℕ) : ℤ) ≤ ((26000 : ℕ) : ℤ) - ((0 : ℕ) : ℤ)
      ∧ (checkHeartbeatStatus (runEvals (startState 0) [5000, 11000]) 26000).isOnline = false) :=
  ⟨⟨by decide, (heartbeat_no_signal_phases 0 [] 0).1 (by decide)⟩,
   ⟨by decide, by decide,
    (heartbeat_no_signal_phases 0 [5000] 11000).2.1 (by decide) (by decide)⟩,
   ⟨by decide, (heartbeat_no_signal_phases 0 [5000, 11000] 26000).2.2 (by decide)⟩⟩

/-- C2: `updateHeartbeat` accepts a strictly newer timestamp and stores it,
ignores an older-or-equal timestamp leaving the whole state unchanged, never
decreases `lastAliveAt`, and over any delivered sequence ends with the maximum
of the initial value and all candidates — hence, starting from the initial
`lastHeartbeatRef.current = 0`, with the maximum timestamp seen. -/
theorem updateHeartbeat_monotone_max :
    (∀ (s : HBState) (t now : ℕ), s.lastAliveAt < t →
        (updateHeartbeat s t now).lastAliveAt = t)
  ∧ (∀ (s : HBState) (t now : ℕ), t ≤ s.lastAliveAt →
        updateHeartbeat s t now = s)
  ∧ (∀ (s : HBState) (t now : ℕ),
        s.lastAliveAt ≤ (updateHeartbeat s t now).lastAliveAt)
  ∧ (∀ (s : HBState) (sigs : List (ℕ × ℕ)),
        (runSignals s sigs).lastAliveAt = (sigs.map Prod.fst).foldl Nat.max s.lastAliveAt)
  ∧ (∀ (b g : Bool) (sigs : List (ℕ × ℕ)),
        (runSignals ⟨0, b, g⟩ sigs).lastAliveAt = (sigs.map Prod.fst).foldl Nat.max 0) := by
  refine ⟨fun s t now h => ?_, fun s t now h => ?_, fun s t now => ?_,
    fun s sigs => runSignals_lastAliveAt sigs s,
    fun b g sigs => runSignals_lastAliveAt sigs ⟨0, b, g⟩⟩
  · rw [updateHeartbeat_lastAliveAt]
    exact Nat.max_eq_right (Nat.le_of_lt h)
  · unfold updateHeartbeat
    rw [if_neg]
    rintro ⟨_, hlt⟩
    omega
  · rw [updateHeartbeat_lastAliveAt]
    exact Nat.le_max_left _ _

/-- Witness for C2: a newer timestamp `7` replaces `5`; an older timestamp
`3` leaves the state untouched. -/
theorem updateHeartbeat_monotone_max_witness :
    ((5 : ℕ) < 7 ∧ (updateHeartbeat ⟨5, true, true⟩ 7 100).lastAliveAt = 7)
  ∧ ((3 : ℕ) ≤ 5 ∧ updateHeartbeat ⟨5, true, true⟩ 3 100 = ⟨5, true, true⟩) :=
  ⟨⟨by decide, updateHeartbeat_monotone_max.1 ⟨5, true, true⟩ 7 100 (by decide)⟩,
   ⟨by decide, updateHeartbeat_monotone_max.2.1 ⟨5, true, true⟩ 3 100 (by decide)⟩⟩

/-- C3: the simpler variant's `checkOnlineStatus` is online exactly when a
non-zero `lastHeartbeat` is present and fewer than `45000` ms have elapsed,
with no grace state; the richer monitor's evaluation is online exactly when
fewer than `HEARTBEAT_TIMEOUT = 25000` ms have elapsed — the two variants use
different offline tolerances. -/
theorem two_variant_thresholds :
    (∀ lastHeartbeat now : ℕ,
        checkOnlineStatus lastHeartbeat now = true ↔
          lastHeartbeat ≠ 0 ∧ (now : ℤ) - (lastHeartbeat : ℤ) < 45000)
  ∧ (∀ (s : HBState) (now : ℕ), s.graceActive = false →
        ((checkHeartbeatStatus s now).isOnline = true ↔
          (now : ℤ) - (s.lastAliveAt : ℤ) < (HEARTBEAT_TIMEOUT : ℤ)))
  ∧ SIMPLE_HEARTBEAT_TIMEOUT = 45000
  ∧ HEARTBEAT_TIMEOUT = 25000
  ∧ SIMPLE_HEARTBEAT_TIMEOUT ≠ HEARTBEAT_TIMEOUT := by
  refine ⟨fun lastHeartbeat now => ?_, fun s now _ => ?_, rfl, rfl, by decide⟩
  · unfold checkOnlineStatus SIMPLE_HEARTBEAT_TIMEOUT
    split_ifs with h0 <;> simp_all
  · rw [checkHeartbeatStatus_isOnline]
    simp

/-- Witness for C3 at a post-grace state `⟨0, true, false⟩` evaluated at
`30000` ms. -/
theorem two_variant_thresholds_witness :
    ((⟨0, true, false⟩ : HBState).graceActive = false)
  ∧ ((checkHeartbeatStatus ⟨0, true, false⟩ 30000).isOnline = true ↔
      ((30000 : ℕ) : ℤ) - (((⟨0, true, false⟩ : HBState).lastAliveAt : ℕ) : ℤ)
        < (HEARTBEAT_TIMEOUT : ℤ)) :=
  ⟨rfl, two_variant_thresholds.2.1 ⟨0, true, false⟩ 30000 rfl⟩

/-- C4 counterexample: with the grace window active and `true` already
published, the evaluation at `1` ms computes online = `true` again, yet
`setIsOnline(true)` still runs (the grace branch publishes unconditionally),
so an evaluation computing the already-published value does publish. -/
theorem grace_publish_counterexample :
    (⟨0, true, true⟩ : HBState).isOnline = true
  ∧ (checkHeartbeatStatusPub ⟨0, true, true⟩ 1).1.isOnline = true
  ∧ (checkHeartbeatStatusPub ⟨0, true, true⟩ 1).2 = some true := by
  refine ⟨rfl, ?_, ?_⟩ <;> decide

/-- C4 amended: an evaluation outside the grace branch publishes exactly when
the computed boolean differs from the previously published one; an evaluation
inside the grace window always publishes `true`, even redundantly. -/
theorem publish_on_change_amended :
    ∀ (s : HBState) (now : ℕ),
      (s.graceActive = true →
        (now : ℤ) - (s.lastAliveAt : ℤ) < (INITIAL_GRACE_PERIOD : ℤ) →
          (checkHeartbeatStatusPub s now).2 = some true)
    ∧ (¬(s.graceActive = true ∧ (now : ℤ) - (s.lastAliveAt : ℤ) < (INITIAL_GRACE_PERIOD : ℤ)) →
          (checkHeartbeatStatusPub s now).2 =
            if s.isOnline = decide ((now : ℤ) - (s.lastAliveAt : ℤ) < (HEARTBEAT_TIMEOUT : ℤ))
            then none
            else some (decide ((now : ℤ) - (s.lastAliveAt : ℤ) < (HEARTBEAT_TIMEOUT : ℤ)))) := by
  intro s now
  constructor
  · intro hg hlt
    unfold checkHeartbeatStatusPub
    rw [if_pos ⟨hg, hlt⟩]
  · intro hn
    unfold checkHeartbeatStatusPub
    rw [if_neg hn]
    dsimp only
    split_ifs with h1 h2 h3 h4 <;> simp_all

/-- Witness for C4 amended: the grace branch at `⟨0, true, true⟩` publishes
`true`; a post-grace evaluation at `⟨0, true, false⟩` and `now = 1` computes
`true` = published and publishes nothing. -/
theorem publish_on_change_amended_witness :
    ((⟨0, true, true⟩ : HBState).graceActive = true
      ∧ ((1 : ℕ) : ℤ) - (((⟨0, true, true⟩ : HBState).lastAliveAt : ℕ) : ℤ)
          < (INITIAL_GRACE_PERIOD : ℤ)
      ∧ (checkHeartbeatStatusPub ⟨0, true, true⟩ 1).2 = some true)
  ∧ (¬((⟨0, true, false⟩ : HBState).graceActive = true
        ∧ ((1 : ℕ) : ℤ) - (((⟨0, true, false⟩ : HBState).lastAliveAt : ℕ) : ℤ)
            < (INITIAL_GRACE_PERIOD : ℤ))
      ∧ (checkHeartbeatStatusPub ⟨0, true, false⟩ 1).2 =
          if (⟨0, true, false⟩ : HBState).isOnline =
              decide (((1 : ℕ) : ℤ) - (((⟨0, true, false⟩ : HBState).lastAliveAt : ℕ) : ℤ)
                < (HEARTBEAT_TIMEOUT : ℤ))
          then none
          else some (decide (((1 : ℕ) : ℤ) - (((⟨0, true, false⟩ : HBState).lastAliveAt : ℕ) : ℤ)
                < (HEARTBEAT_TIMEOUT : ℤ)))) :=
  ⟨⟨rfl, by decide, (publish_on_change_amended ⟨0, true, true⟩ 1).1 rfl (by decide)⟩,
   ⟨by decide, (publish_on_change_amended ⟨0, true, false⟩ 1).2 (by decide)⟩⟩

/-- C9: the monitor treats malformed liveness values — `NaN`, a missing
field, a non-numeric string — and the falsy timestamp `0` as "no signal":
`updateHeartbeat` returns the state unchanged (and, being a total function,
never throws); a numeric value goes through the ordinary guarded update. -/
theorem malformed_signal_ignored :
    ∀ (s : HBState) (now : ℕ) (str : String),
      updateHeartbeatVal s LivenessValue.nan now = s
    ∧ updateHeartbeatVal s LivenessValue.missing now = s
    ∧ updateHeartbeatVal s (LivenessValue.strBad str) now = s
    ∧ updateHeartbeatVal s (LivenessValue.num 0) now = s
    ∧ (∀ t : ℕ, updateHeartbeatVal s (LivenessValue.num t) now = updateHeartbeat s t now) := by
  intro s now str
  refine ⟨rfl, rfl, rfl, ?_, fun t => rfl⟩
  show updateHeartbeat s 0 now = s
  unfold updateHeartbeat
  rw [if_neg]
  rintro ⟨h0, _⟩
  exact h0 rfl

/-! ### Lemmas about list folds of min and max -/

lemma foldl_min_le_start (l : List ℚ) (a : ℚ) : l.foldl min a ≤ a := by
  induction l generalizing a with
  | nil => exact le_refl a
  | cons x l ih =>
    exact le_trans (ih (min a x)) (min_le_left a x)

lemma foldl_min_le (l : List ℚ) (a : ℚ) : ∀ x ∈ l, l.foldl min a ≤ x := by
  induction l generalizing a with
  | nil => intro x hx; cases hx
  | cons y l ih =>
    intro x hx
    rcases List.mem_cons.mp hx with h | h
    · subst h
      exact le_trans (foldl_min_le_start l (min a x)) (min_le_right a x)
    · exact ih (min a y) x h

lemma foldl_min_cases (l : List ℚ) (a : ℚ) : l.foldl min a = a ∨ l.foldl min a ∈ l := by
  induction l generalizing a with
  | nil => exact Or.inl rfl
  | cons x l ih =>
    rcases ih (min a x) with h | h
    · rcases min_choice a x with hc | hc
      · exact Or.inl (by rw [List.foldl_cons, h, hc])
      · exact Or.inr (by rw [List.foldl_cons, h, hc]; exact List.mem_cons_self x l)
    · exact Or.inr (List.mem_cons_of_mem x h)

lemma foldl_max_ge_start (l : List ℚ) (a : ℚ) : a ≤ l.foldl max a := by
  induction l generalizing a with
  | nil => exact le_refl a
  | cons x l ih =>
    exact le_trans (le_max_left a x) (ih (max a x))

lemma foldl_max_ge (l : List ℚ) (a : ℚ) : ∀ x ∈ l, x ≤ l.foldl max a := by
  induction l generalizing a with
  | nil => intro x hx; cases hx
  | cons y l ih =>
    intro x hx
    rcases List.mem_cons.mp hx with h | h
    · subst h
      exact le_trans (le_max_right a x) (foldl_max_ge_start l (max a x))
    · exact ih (max a y) x h

lemma foldl_max_cases (l : List ℚ) (a : ℚ) : l.foldl max a = a ∨ l.foldl max a ∈ l := by
  induction l generalizing a with
  | nil => exact Or.inl rfl
  | cons x l ih =>
    rcases ih (max a x) with h | h
    · rcases max_choice a x with hc | hc
      · exact Or.inl (by rw [List.foldl_cons, h, hc])
      · exact Or.inr (by rw [List.foldl_cons, h, hc]; exact List.mem_cons_self x l)
    · exact Or.inr (List.mem_cons_of_mem x h)

/-! ### Claim theorems: history reducer and chart engine -/

/-- C5: for every fetched window and selected metric the reduced history is
sorted ascending by parsed capture timestamp, contains exactly the loaded
records whose selected-metric value survives the nullish/NaN filter, and on
the concrete window with temperatures `[20, null, 22]` at increasing
timestamps yields exactly the two points `20` and `22` in order. -/
theorem history_reducer_sorted_filtered :
    ∀ (entries : List (String × RawHistorico)) (m : Metric),
      List.Pairwise byDataHora (filteredHistorico (loadHistoricoFromFirebase entries) m)
    ∧ (∀ r : HistoricoItem,
        r ∈ filteredHistorico (loadHistoricoFromFirebase entries) m ↔
          (r ∈ entries.map (fun e => mkItem e.2 e.1) ∧ keepSample (getField r m) = true))
    ∧ filteredHistorico (loadHistoricoFromFirebase demoEntries) Metric.temperatura
        = [demoItem1, demoItem3]
    ∧ (filteredHistorico (loadHistoricoFromFirebase demoEntries) Metric.temperatura).map
        (fun i => jsToNumber (getField i Metric.temperatura)) = [some 20, some 22] := by
  intro entries m
  refine ⟨?_, ?_, by decide, by decide⟩
  · unfold filteredHistorico
    split_ifs with h
    · exact List.Pairwise.nil
    · exact (List.sorted_insertionSort byDataHora _).sublist (List.filter_sublist _)
  · intro r
    unfold filteredHistorico
    split_ifs with h
    · simp only [List.not_mem_nil, false_iff, not_and]
      intro hr
      have := (List.perm_insertionSort byDataHora
        (entries.map fun e => mkItem e.2 e.1)).mem_iff (a := r)
      rw [loadHistoricoFromFirebase] at h
      rw [h] at this
      intro _
      exact absurd (this.mpr hr) (List.not_mem_nil r)
    · rw [List.mem_filter]
      rw [loadHistoricoFromFirebase]
      rw [(List.perm_insertionSort byDataHora _).mem_iff]

/-- C6 counterexample: for the concrete single-sample series the padded
display range is degenerate — the code applies no minimum-span clamp, so the
displayed height is zero, contradicting the claimed non-degenerate range. -/
theorem single_sample_degenerate_range :
    (chartRange [demoItem1] Metric.temperatura).actualMin
        = (chartRange [demoItem1] Metric.temperatura).actualMax
  ∧ (chartRange [demoItem1] Metric.temperatura).max
        - (chartRange [demoItem1] Metric.temperatura).min = 0 := by
  have h : chartRange [demoItem1] Metric.temperatura =
      ⟨20 - (20 - 20) * (1 / 10), 20 + (20 - 20) * (1 / 10), 20, 20, 20⟩ := rfl
  rw [h]
  exact ⟨rfl, by norm_num⟩

/-- C6 amended: the empty series gives the all-zero range; a non-empty series
gives `current` = last value, `actualMin`/`actualMax` the unpadded extrema,
and display bounds extended by 10% of the span on each side; a single-sample
series has `min = max = current` both before and after the margin — the
displayed range collapses to a single line, no minimum-span clamp applied. -/
theorem chart_range_amended :
    ∀ (filtered : List HistoricoItem) (m : Metric),
      chartRange [] m = ⟨0, 0, 0, 0, 0⟩
    ∧ (filtered ≠ [] →
        (filtered.map fun i => jsOr0 (getField i m)).getLast? =
            some (chartRange filtered m).current
        ∧ (∀ v ∈ filtered.map fun i => jsOr0 (getField i m),
              (chartRange filtered m).actualMin ≤ v ∧ v ≤ (chartRange filtered m).actualMax)
        ∧ (chartRange filtered m).actualMin ∈ (filtered.map fun i => jsOr0 (getField i m))
        ∧ (chartRange filtered m).actualMax ∈ (filtered.map fun i => jsOr0 (getField i m))
        ∧ (chartRange filtered m).min = (chartRange filtered m).actualMin
            - ((chartRange filtered m).actualMax - (chartRange filtered m).actualMin) * (1 / 10)
        ∧ (chartRange filtered m).max = (chartRange filtered m).actualMax
            + ((chartRange filtered m).actualMax - (chartRange filtered m).actualMin) * (1 / 10))
    ∧ (∀ item : HistoricoItem,
        (chartRange [item] m).actualMin = jsOr0 (getField item m)
        ∧ (chartRange [item] m).actualMax = jsOr0 (getField item m)
        ∧ (chartRange [item] m).current = jsOr0 (getField item m)
        ∧ (chartRange [item] m).min = jsOr0 (getField item m)
        ∧ (chartRange [item] m).max = jsOr0 (getField item m)) := by
  intro filtered m
  refine ⟨rfl, fun hne => ?_, fun item => ?_⟩
  · rcases hq : filtered.map (fun i => jsOr0 (getField i m)) with _ | ⟨v, vs⟩
    · exact absurd (List.map_eq_nil_iff.mp hq) hne
    · have hcr : chartRange filtered m =
          ⟨vs.foldl min v - (vs.foldl max v - vs.foldl min v) * (1 / 10),
           vs.foldl max v + (vs.foldl max v - vs.foldl min v) * (1 / 10),
           (v :: vs).getLast (by simp),
           vs.foldl min v, vs.foldl max v⟩ := by
        unfold chartRange
        rw [if_neg hne, hq]
      rw [hcr]
      refine ⟨?_, ?_, ?_, ?_, rfl, rfl⟩
      · exact List.getLast?_eq_getLast (v :: vs) (by simp)
      · intro x hx
        rcases List.mem_cons.mp hx with h | h
        · subst h
          exact ⟨foldl_min_le_start vs x, foldl_max_ge_start vs x⟩
        · exact ⟨foldl_min_le vs v x h, foldl_max_ge vs v x h⟩
      · rcases foldl_min_cases vs v with h | h
        · rw [h]; exact List.mem_cons_self v vs
        · exact List.mem_cons_of_mem v h
      · rcases foldl_max_cases vs v with h | h
        · rw [h]; exact List.mem_cons_self v vs
        · exact List.mem_cons_of_mem v h
  · have hcr : chartRange [item] m =
        ⟨jsOr0 (getField item m) - (jsOr0 (getField item m) - jsOr0 (getField item m)) * (1 / 10),
         jsOr0 (getField item m) + (jsOr0 (getField item m) - jsOr0 (getField item m)) * (1 / 10),
         jsOr0 (getField item m), jsOr0 (getField item m), jsOr0 (getField item m)⟩ := rfl
    rw [hcr]
    exact ⟨rfl, rfl, rfl, by ring, by ring⟩

/-- Witness for C6 amended: the non-empty branch applied to the singleton
demo series. -/
theorem chart_range_amended_witness :
    ([demoItem1] ≠ ([] : List HistoricoItem))
  ∧ (chartRange [demoItem1] Metric.temperatura).min
      = (chartRange [demoItem1] Metric.temperatura).actualMin
        - ((chartRange [demoItem1] Metric.temperatura).actualMax
            - (chartRange [demoItem1] Metric.temperatura).actualMin) * (1 / 10) :=
  ⟨by decide,
   ((chart_range_amended [demoItem1] Metric.temperatura).2.1 (by decide)).2.2.2.2.1⟩

/-- C7: the label generator always returns exactly `steps + 1 = 5` labels
(blank for the empty series and never an exception — it is a total function),
the five underlying levels are evenly spaced from the padded maximum down to
the padded minimum, and the formatter gives temperature one decimal plus °C
and rounds every other metric to an integer with its unit suffix. -/
theorem y_axis_labels_spec :
    ∀ (filtered : List HistoricoItem) (m : Metric),
      (generateYAxisLabels filtered m).length = 4 + 1
    ∧ generateYAxisLabels [] m = ["", "", "", "", ""]
    ∧ (∀ v : ℚ, fmtLabel Metric.temperatura v = fmtFixed1 v ++ "°C")
    ∧ (∀ v : ℚ, fmtLabel Metric.umidade v = toString (jsRound v) ++ "%")
    ∧ (∀ v : ℚ, fmtLabel Metric.luminosidade v = toString (jsRound v) ++ "LUX")
    ∧ (∀ v : ℚ, fmtLabel Metric.co2 v = toString (jsRound v) ++ "PPM")
    ∧ (∀ v : ℚ, fmtLabel Metric.co v = toString (jsRound v) ++ "PPM")
    ∧ (∀ r : ChartRange,
        yLevels r = [r.max,
          r.max - (r.max - r.min) / 4,
          r.max - 2 * ((r.max - r.min) / 4),
          r.max - 3 * ((r.max - r.min) / 4),
          r.min])
    ∧ (filtered ≠ [] →
        generateYAxisLabels filtered m = (yLevels (chartRange filtered m)).map (fmtLabel m)) := by
  intro filtered m
  refine ⟨?_, rfl, fun v => rfl, fun v => rfl, fun v => rfl, fun v => rfl, fun v => rfl,
    fun r => ?_, fun hne => ?_⟩
  · unfold generateYAxisLabels
    split_ifs with h
    · rfl
    · simp [yLevels]
  · have h5 : List.range 5 = [0, 1, 2, 3, 4] := rfl
    rw [yLevels, h5]
    simp only [List.map_cons, List.map_nil, List.cons.injEq, and_true]
    norm_num
    ring_nf
    simp
  · unfold generateYAxisLabels
    rw [if_neg hne]

/-- Witness for C7: the non-empty branch applied to the singleton demo
series with the temperature metric. -/
theorem y_axis_labels_spec_witness :
    ([demoItem1] ≠ ([] : List HistoricoItem))
  ∧ generateYAxisLabels [demoItem1] Metric.temperatura
      = (yLevels (chartRange [demoItem1] Metric.temperatura)).map (fmtLabel Metric.temperatura) :=
  ⟨by decide,
   (y_axis_labels_spec [demoItem1] Metric.temperatura).2.2.2.2.2.2.2.2 (by decide)⟩

/-! ### Claim theorems: actuator state derivation -/

/-- C8: the climate-control derivation maps primary and secondary relay both
on to the heating state (Aquecendo), primary on with secondary off to the
cooling state (Resfriando), and primary off to OFF regardless of the
secondary relay. -/
theorem climatizador_relay_states :
    ∀ a : Atuadores,
      (jsBool a.rele1 = true → jsBool a.rele2 = true →
        climatizador a = ("Aquecendo", "#FFA500"))
    ∧ (jsBool a.rele1 = true → jsBool a.rele2 = false →
        climatizador a = ("Resfriando", "#B2F0F4"))
    ∧ (jsBool a.rele1 = false → climatizador a = ("OFF", "#d3d3d3")) := by
  intro a
  exact ⟨fun h1 h2 => by simp [climatizador, h1, h2],
    fun h1 h2 => by simp [climatizador, h1, h2],
    fun h1 => by simp [climatizador, h1]⟩

/-- Witness for C8: both relays on gives the heating state. -/
theorem climatizador_relay_states_witness :
    (jsBool (Atuadores.mk (some true) (some true) none none).rele1 = true)
  ∧ (jsBool (Atuadores.mk (some true) (some true) none none).rele2 = true)
  ∧ climatizador ⟨some true, some true, none, none⟩ = ("Aquecendo", "#FFA500") :=
  ⟨by decide, by decide,
   (climatizador_relay_states ⟨some true, some true, none, none⟩).1 (by decide) (by decide)⟩

/-- C10: the humidifier state comes from the `umidificador` field whenever it
is present (even an explicit `false`), and falls back to `rele3` only when
`umidificador` is `null`/`undefined`; in particular `umidificador = false`
shows OFF even with `rele3 = true`. -/
theorem umidificador_nullish_fallback :
    ∀ (a : Atuadores) (b : Bool),
      (a.umidificador = some b →
        umidificador a = (if b then ("ON", "#00FF00") else ("OFF", "#d3d3d3")))
    ∧ (a.umidificador = none →
        umidificador a =
          (if jsBool a.rele3 then ("ON", "#00FF00") else ("OFF", "#d3d3d3")))
    ∧ (∀ r1 r2 : Option Bool,
        umidificador ⟨r1, r2, some true, some false⟩ = ("OFF", "#d3d3d3")) := by
  intro a b
  refine ⟨fun h => ?_, fun h => ?_, fun r1 r2 => rfl⟩
  · unfold umidificador nullishOr
    rw [h]
    cases b <;> rfl
  · unfold umidificador nullishOr
    rw [h]

/-- Witness for C10: an explicit `umidificador = false` wins over
`rele3 = true` and shows OFF. -/
theorem umidificador_nullish_fallback_witness :
    ((Atuadores.mk none none (some true) (some false)).umidificador = some false)
  ∧ umidificador ⟨none, none, some true, some false⟩
      = (if false then ("ON", "#00FF00") else ("OFF", "#d3d3d3")) :=
  ⟨rfl, (umidificador_nullish_fallback ⟨none, none, some true, some false⟩ false).1 rfl⟩

end IFungi
